import Mathlib

/-!
Verification of the pidgeon PID controller core
(src/crates/pidgeon/src/lib.rs).

Shallow embedding: `f64` values are modelled as exact rationals `ℚ`
(the claims under study concern the real-arithmetic behaviour of the
controller); `Instant::now()` is modelled by passing the current time
explicitly as a rational `now` parameter, and a `Duration` stored in
the state is the rational difference `now - start_time` at the moment
of recording.  `Option<Duration>` becomes `Option ℚ`.  The
`f64::NAN` sentinel returned by `get_statistics` for a missing
`rise_time` is modelled as `none`.  The mutex of
`ThreadSafePidController` serialises calls; each facade method is
modelled as the corresponding function on the wrapped engine state.
The `min_output`/`max_output` defaults of `ControllerConfig::default`
are `-∞`/`+∞`, which have no rational counterpart; every scenario in
this development supplies finite limits explicitly, so configurations
are built with all fields given.
-/

namespace Pidgeon

/-- `ControllerConfig` from lib.rs: gains, output clamp bounds,
anti-windup flag and the (inert) setpoint. -/
structure ControllerConfig where
  kp : ℚ
  ki : ℚ
  kd : ℚ
  min_output : ℚ
  max_output : ℚ
  anti_windup : Bool
  setpoint : ℚ
deriving Repr, DecidableEq

namespace ControllerConfig

/-- `ControllerConfig::with_kp`. -/
def with_kp (c : ControllerConfig) (kp : ℚ) : ControllerConfig :=
  { c with kp := kp }

/-- `ControllerConfig::with_ki`. -/
def with_ki (c : ControllerConfig) (ki : ℚ) : ControllerConfig :=
  { c with ki := ki }

/-- `ControllerConfig::with_kd`. -/
def with_kd (c : ControllerConfig) (kd : ℚ) : ControllerConfig :=
  { c with kd := kd }

/-- `ControllerConfig::with_output_limits`. -/
def with_output_limits (c : ControllerConfig) (mn mx : ℚ) : ControllerConfig :=
  { c with min_output := mn, max_output := mx }

/-- `ControllerConfig::with_anti_windup`. -/
def with_anti_windup (c : ControllerConfig) (enable : Bool) : ControllerConfig :=
  { c with anti_windup := enable }

/-- `ControllerConfig::with_setpoint`. -/
def with_setpoint (c : ControllerConfig) (setpoint : ℚ) : ControllerConfig :=
  { c with setpoint := setpoint }

end ControllerConfig

/-- `ControllerStatistics` from lib.rs.  `rise_time` is `f64` in the
source with `f64::NAN` as the "never reached" sentinel; here it is an
`Option ℚ` with `none` for the sentinel. -/
structure ControllerStatistics where
  average_error : ℚ
  max_overshoot : ℚ
  settling_time : ℚ
  rise_time : Option ℚ
deriving Repr, DecidableEq

/-- The mutable state of `PidController` from lib.rs.  `start_time`
is the absolute time (rational) recorded at construction / reset;
`rise_time` and `settle_time` store durations relative to
`start_time`, as in the source. -/
structure PidController where
  config : ControllerConfig
  integral : ℚ
  prev_error : ℚ
  first_run : Bool
  start_time : ℚ
  error_sum : ℚ
  error_count : ℕ
  max_error : ℚ
  reached_setpoint : Bool
  rise_time : Option ℚ
  settle_time : Option ℚ
  settled_threshold : ℚ
deriving Repr, DecidableEq

namespace PidController

/-- `PidController::new(config)`; `now` models the `Instant::now()`
captured into `start_time`. -/
def new (config : ControllerConfig) (now : ℚ) : PidController :=
  { config := config
    integral := 0
    prev_error := 0
    first_run := true
    start_time := now
    error_sum := 0
    error_count := 0
    max_error := 0
    reached_setpoint := false
    rise_time := none
    settle_time := none
    settled_threshold := 1/20 }

/-- `PidController::update_statistics(error)`; `now` models
`Instant::now()` at the moment of the call. -/
def update_statistics (s : PidController) (error now : ℚ) : PidController :=
  let s := { s with error_sum := s.error_sum + |error|,
                    error_count := s.error_count + 1 }
  let s := if |error| > s.max_error then { s with max_error := |error| } else s
  let s := if ¬ s.reached_setpoint ∧ |error| ≤ s.settled_threshold then
      { s with reached_setpoint := true, rise_time := some (now - s.start_time) }
    else s
  if s.reached_setpoint ∧ |error| ≤ s.settled_threshold ∧ s.settle_time = none then
    { s with settle_time := some (now - s.start_time) }
  else if |error| > s.settled_threshold then
    { s with settle_time := none }
  else s

/-- The first-run branch of `PidController::compute`: seed
`prev_error` with the first observed error. -/
def seedFirstRun (s : PidController) (error : ℚ) : PidController :=
  if s.first_run then { s with prev_error := error, first_run := false } else s

/-- The derivative term of `PidController::compute`:
`kd * (error - prev_error) / dt`. -/
def dTerm (s : PidController) (error dt : ℚ) : ℚ :=
  s.config.kd * (error - s.prev_error) / dt

/-- The output-limiting step of `PidController::compute` (and of
`ThreadSafePidController::get_control_signal`):
`if output > max { max } else if output < min { min }`. -/
def clampOutput (raw mn mx : ℚ) : ℚ :=
  if raw > mx then mx else if raw < mn then mn else raw

/-- `PidController::compute(error, dt)`: returns the clamped output
and the updated controller state. -/
def compute (s : PidController) (error dt now : ℚ) : ℚ × PidController :=
  let s := s.update_statistics error now
  let s := s.seedFirstRun error
  let p_term := s.config.kp * error
  let pre_integral := s.integral + error * dt
  let d_term := s.dTerm error dt
  let raw_output := p_term + s.config.ki * pre_integral + d_term
  let output := clampOutput raw_output s.config.min_output s.config.max_output
  let s :=
    if s.config.anti_windup then
      if (output ≥ s.config.max_output ∧ error > 0) ∨
         (output ≤ s.config.min_output ∧ error < 0) then
        s
      else { s with integral := pre_integral }
    else { s with integral := pre_integral }
  (output, { s with prev_error := error })

/-- The state after a `compute` call, discarding the returned output. -/
def computeState (s : PidController) (error dt now : ℚ) : PidController :=
  (s.compute error dt now).2

/-- `n` successive `compute` calls with a constant `(error, dt, now)`. -/
def runConst (s : PidController) (error dt now : ℚ) : ℕ → PidController
  | 0 => s
  | n + 1 => (s.runConst error dt now n).computeState error dt now

/-- A sequence of `compute` calls, one per `(error, dt, now)` triple. -/
def runList (s : PidController) : List (ℚ × ℚ × ℚ) → PidController
  | [] => s
  | (e, dt, now) :: rest => ((s.compute e dt now).2).runList rest

/-- `PidController::reset()`; `now` models the reseeded
`Instant::now()`. -/
def reset (s : PidController) (now : ℚ) : PidController :=
  { s with integral := 0
           prev_error := 0
           first_run := true
           start_time := now
           error_sum := 0
           error_count := 0
           max_error := 0
           reached_setpoint := false
           rise_time := none
           settle_time := none }

/-- `PidController::set_kp`. -/
def set_kp (s : PidController) (kp : ℚ) : PidController :=
  { s with config := { s.config with kp := kp } }

/-- `PidController::set_ki`. -/
def set_ki (s : PidController) (ki : ℚ) : PidController :=
  { s with config := { s.config with ki := ki } }

/-- `PidController::set_kd`. -/
def set_kd (s : PidController) (kd : ℚ) : PidController :=
  { s with config := { s.config with kd := kd } }

/-- `PidController::set_output_limits`. -/
def set_output_limits (s : PidController) (mn mx : ℚ) : PidController :=
  { s with config := { s.config with min_output := mn, max_output := mx } }

/-- `PidController::set_anti_windup`. -/
def set_anti_windup (s : PidController) (enable : Bool) : PidController :=
  { s with config := { s.config with anti_windup := enable } }

/-- `PidController::set_setpoint`. -/
def set_setpoint (s : PidController) (setpoint : ℚ) : PidController :=
  { s with config := { s.config with setpoint := setpoint } }

/-- `PidController::set_settled_threshold`. -/
def set_settled_threshold (s : PidController) (threshold : ℚ) : PidController :=
  { s with settled_threshold := threshold }

/-- `PidController::get_statistics()`; `now` models `Instant::now()`
in the `settle_time == None` branch. -/
def get_statistics (s : PidController) (now : ℚ) : ControllerStatistics :=
  let avg_error := if s.error_count > 0 then s.error_sum / (s.error_count : ℚ) else 0
  let settling_time :=
    match s.settle_time with
    | some time => time
    | none => now - s.start_time
  { average_error := avg_error
    max_overshoot := s.max_error
    settling_time := settling_time
    rise_time := s.rise_time }

end PidController

/-- `ThreadSafePidController::get_control_signal()`, modelled on the
wrapped engine state (the mutex serialises access; the method takes
the lock, reads, and releases).  It mutates nothing: in this
embedding that is manifest in its type `PidController → ℚ`. -/
def ThreadSafePidController.get_control_signal (s : PidController) : ℚ :=
  if s.first_run then 0
  else
    let p_term := s.config.kp * s.prev_error
    let i_term := s.config.ki * s.integral
    let d_term := (0 : ℚ)
    PidController.clampOutput (p_term + i_term + d_term)
      s.config.min_output s.config.max_output


/-- The `tests::test_anti_windup` configuration with `with_anti_windup(false)`:
`kp = 0.5, ki = 0.5, kd = 0, output limits [-1, 1]`. -/
def config_with_windup : ControllerConfig :=
  { kp := 1/2, ki := 1/2, kd := 0, min_output := -1, max_output := 1,
    anti_windup := false, setpoint := 0 }

/-- The `tests::test_anti_windup` configuration with `with_anti_windup(true)`:
`kp = 0.5, ki = 0.5, kd = 0, output limits [-1, 1]`. -/
def config_with_anti_windup : ControllerConfig :=
  { kp := 1/2, ki := 1/2, kd := 0, min_output := -1, max_output := 1,
    anti_windup := true, setpoint := 0 }

/-- A concrete gain configuration used to instantiate universally
quantified results on explicit inputs. -/
def sampleConfig : ControllerConfig :=
  { kp := 1, ki := 1, kd := 1, min_output := -5, max_output := 5,
    anti_windup := false, setpoint := 0 }

/-- A controller built at time 0 that received one `compute` call with
`error = 0` at time 2, hence recorded `settle_time = 2 - 0`. -/
def settledAtTwo : PidController :=
  ((PidController.new
      { kp := 1, ki := 0, kd := 0, min_output := -100, max_output := 100,
        anti_windup := false, setpoint := 0 } 0).compute 0 (1/10) 2).2

/-- A concrete mid-run controller state: it has reached the setpoint
(`reached_setpoint`, `rise_time` recorded) but currently has no
recorded `settle_time`. -/
def bandState : PidController :=
  { config := sampleConfig
    integral := 2
    prev_error := 1
    first_run := false
    start_time := 0
    error_sum := 3
    error_count := 4
    max_error := 5
    reached_setpoint := true
    rise_time := some 1
    settle_time := none
    settled_threshold := 1/20 }

/-- Equality of the whole dynamic and statistics state (everything a
`PidController` holds besides `config` and `settled_threshold`):
`integral`, `prev_error`, `first_run`, `start_time`, `error_sum`,
`error_count`, `max_error`, `reached_setpoint`, `rise_time`,
`settle_time`. -/
def dynamicFrame (s t : PidController) : Prop :=
  s.integral = t.integral ∧ s.prev_error = t.prev_error ∧
  s.first_run = t.first_run ∧ s.start_time = t.start_time ∧
  s.error_sum = t.error_sum ∧ s.error_count = t.error_count ∧
  s.max_error = t.max_error ∧ s.reached_setpoint = t.reached_setpoint ∧
  s.rise_time = t.rise_time ∧ s.settle_time = t.settle_time

/-!  ### Frame lemmas for the statistics update and first-run seeding  -/

namespace PidController

@[simp] lemma us_integral (s : PidController) (e now : ℚ) :
    (s.update_statistics e now).integral = s.integral := by
  simp only [update_statistics]
  split_ifs <;> rfl

@[simp] lemma us_prev_error (s : PidController) (e now : ℚ) :
    (s.update_statistics e now).prev_error = s.prev_error := by
  simp only [update_statistics]
  split_ifs <;> rfl

@[simp] lemma us_first_run (s : PidController) (e now : ℚ) :
    (s.update_statistics e now).first_run = s.first_run := by
  simp only [update_statistics]
  split_ifs <;> rfl

@[simp] lemma us_config (s : PidController) (e now : ℚ) :
    (s.update_statistics e now).config = s.config := by
  simp only [update_statistics]
  split_ifs <;> rfl

@[simp] lemma us_start_time (s : PidController) (e now : ℚ) :
    (s.update_statistics e now).start_time = s.start_time := by
  simp only [update_statistics]
  split_ifs <;> rfl

@[simp] lemma us_threshold (s : PidController) (e now : ℚ) :
    (s.update_statistics e now).settled_threshold = s.settled_threshold := by
  simp only [update_statistics]
  split_ifs <;> rfl

@[simp] lemma seed_integral (s : PidController) (e : ℚ) :
    (s.seedFirstRun e).integral = s.integral := by
  simp only [seedFirstRun]
  split_ifs <;> rfl

@[simp] lemma seed_config (s : PidController) (e : ℚ) :
    (s.seedFirstRun e).config = s.config := by
  simp only [seedFirstRun]
  split_ifs <;> rfl

@[simp] lemma seed_start_time (s : PidController) (e : ℚ) :
    (s.seedFirstRun e).start_time = s.start_time := by
  simp only [seedFirstRun]
  split_ifs <;> rfl

@[simp] lemma seed_threshold (s : PidController) (e : ℚ) :
    (s.seedFirstRun e).settled_threshold = s.settled_threshold := by
  simp only [seedFirstRun]
  split_ifs <;> rfl

@[simp] lemma seed_reached (s : PidController) (e : ℚ) :
    (s.seedFirstRun e).reached_setpoint = s.reached_setpoint := by
  simp only [seedFirstRun]
  split_ifs <;> rfl

@[simp] lemma seed_rise (s : PidController) (e : ℚ) :
    (s.seedFirstRun e).rise_time = s.rise_time := by
  simp only [seedFirstRun]
  split_ifs <;> rfl

@[simp] lemma seed_settle (s : PidController) (e : ℚ) :
    (s.seedFirstRun e).settle_time = s.settle_time := by
  simp only [seedFirstRun]
  split_ifs <;> rfl

lemma seed_prev_error (s : PidController) (e : ℚ) :
    (s.seedFirstRun e).prev_error = if s.first_run then e else s.prev_error := by
  simp only [seedFirstRun]
  split_ifs <;> rfl

end PidController


/-!  ### Characterization lemmas for `compute`  -/

namespace PidController

lemma compute_config (s : PidController) (e dt now : ℚ) :
    (s.compute e dt now).2.config = s.config := by
  simp only [compute]
  split_ifs <;> simp

lemma compute_prev_error (s : PidController) (e dt now : ℚ) :
    (s.compute e dt now).2.prev_error = e := rfl

lemma compute_first_run (s : PidController) (e dt now : ℚ) :
    (s.compute e dt now).2.first_run = false := by
  simp only [compute, seedFirstRun]
  split_ifs <;> simp_all

lemma compute_start_time (s : PidController) (e dt now : ℚ) :
    (s.compute e dt now).2.start_time = s.start_time := by
  simp only [compute]
  split_ifs <;> simp

lemma compute_threshold (s : PidController) (e dt now : ℚ) :
    (s.compute e dt now).2.settled_threshold = s.settled_threshold := by
  simp only [compute]
  split_ifs <;> simp

lemma compute_integral_spec (s : PidController) (e dt now : ℚ) :
    (s.compute e dt now).2.integral =
      if s.config.anti_windup = true ∧
          (((s.compute e dt now).1 ≥ s.config.max_output ∧ e > 0) ∨
           ((s.compute e dt now).1 ≤ s.config.min_output ∧ e < 0))
      then s.integral
      else s.integral + e * dt := by
  simp only [compute, us_integral, us_config, seed_integral, seed_config]
  split_ifs <;> simp_all

lemma compute_output_spec (s : PidController) (e dt now : ℚ) :
    (s.compute e dt now).1 =
      clampOutput (s.config.kp * e + s.config.ki * (s.integral + e * dt) +
          s.config.kd * (e - (if s.first_run then e else s.prev_error)) / dt)
        s.config.min_output s.config.max_output := by
  simp only [compute, dTerm, us_integral, us_config, seed_integral, seed_config,
    seed_prev_error, us_prev_error, us_first_run]

lemma compute_settle_eq_us (s : PidController) (e dt now : ℚ) :
    (s.compute e dt now).2.settle_time = (s.update_statistics e now).settle_time := by
  simp only [compute]
  split_ifs <;> simp

lemma us_reached_of_true (s : PidController) (e now : ℚ)
    (h : s.reached_setpoint = true) :
    (s.update_statistics e now).reached_setpoint = true := by
  simp only [update_statistics]
  split_ifs <;> simp_all

lemma us_rise_of_true (s : PidController) (e now : ℚ)
    (h : s.reached_setpoint = true) :
    (s.update_statistics e now).rise_time = s.rise_time := by
  simp only [update_statistics]
  split_ifs <;> simp_all

lemma us_settle_of_big (s : PidController) (e now : ℚ)
    (h : |e| > s.settled_threshold) :
    (s.update_statistics e now).settle_time = none := by
  simp only [update_statistics]
  split_ifs <;> simp_all <;> linarith

lemma us_settle_of_band (s : PidController) (e now : ℚ)
    (h1 : s.settle_time = none) (h2 : |e| ≤ s.settled_threshold)
    (h3 : s.reached_setpoint = true) :
    (s.update_statistics e now).settle_time = some (now - s.start_time) := by
  simp only [update_statistics]
  split_ifs <;> simp_all

lemma us_settle_first_entry (s : PidController) (e now : ℚ)
    (h1 : s.settle_time = none) (h2 : |e| ≤ s.settled_threshold)
    (h3 : s.reached_setpoint = false) :
    (s.update_statistics e now).settle_time = some (now - s.start_time) := by
  simp only [update_statistics]
  split_ifs <;> simp_all

lemma compute_reached_of_true (s : PidController) (e dt now : ℚ)
    (h : s.reached_setpoint = true) :
    (s.compute e dt now).2.reached_setpoint = true := by
  simp only [compute]
  split_ifs <;> simp [us_reached_of_true, h]

lemma compute_rise_of_true (s : PidController) (e dt now : ℚ)
    (h : s.reached_setpoint = true) :
    (s.compute e dt now).2.rise_time = s.rise_time := by
  simp only [compute]
  split_ifs <;> simp [us_rise_of_true, h]

lemma compute_settle_of_big (s : PidController) (e dt now : ℚ)
    (h : |e| > s.settled_threshold) :
    (s.compute e dt now).2.settle_time = none := by
  simp only [compute]
  split_ifs <;> simp [us_settle_of_big, h]

lemma compute_integral_noAW (s : PidController) (e dt now : ℚ)
    (h : s.config.anti_windup = false) :
    (s.compute e dt now).2.integral = s.integral + e * dt := by
  rw [compute_integral_spec]
  simp [h]

lemma runConst_config (s : PidController) (e dt now : ℚ) (n : ℕ) :
    (s.runConst e dt now n).config = s.config := by
  induction n with
  | zero => rfl
  | succ n ih => rw [runConst, computeState, compute_config, ih]

lemma runConst_integral_noAW (s : PidController) (e dt now : ℚ)
    (h : s.config.anti_windup = false) (n : ℕ) :
    (s.runConst e dt now n).integral = s.integral + n * (e * dt) := by
  induction n with
  | zero => simp [runConst]
  | succ n ih =>
    rw [runConst, computeState,
      compute_integral_noAW _ _ _ _ (by rw [runConst_config]; exact h), ih]
    push_cast
    ring

lemma aw_run_integral_zero (n : ℕ) :
    ((new config_with_anti_windup 0).runConst 10 (1/10) 0 n).integral = 0 := by
  induction n with
  | zero => rfl
  | succ n ih =>
    have hcfg : ((new config_with_anti_windup 0).runConst 10 (1/10) 0 n).config =
        config_with_anti_windup := runConst_config _ _ _ _ _
    rw [runConst, computeState, compute_integral_spec]
    have hout : (((new config_with_anti_windup 0).runConst 10 (1/10) 0 n).compute
        10 (1/10) 0).1 = 1 := by
      rw [compute_output_spec, hcfg, ih]
      norm_num [config_with_anti_windup, clampOutput]
    rw [hout, hcfg, ih]
    norm_num [config_with_anti_windup]

lemma runList_reached_rise (L : List (ℚ × ℚ × ℚ)) (s : PidController)
    (h : s.reached_setpoint = true) :
    (s.runList L).reached_setpoint = true ∧ (s.runList L).rise_time = s.rise_time := by
  induction L generalizing s with
  | nil => exact ⟨h, rfl⟩
  | cons x rest ih =>
    obtain ⟨e, dt, now⟩ := x
    have h1 := compute_reached_of_true s e dt now h
    obtain ⟨hr, hrise⟩ := ih _ h1
    refine ⟨hr, ?_⟩
    show ((s.compute e dt now).2.runList rest).rise_time = s.rise_time
    rw [hrise, compute_rise_of_true s e dt now h]

end PidController

end Pidgeon

namespace Pidgeon
namespace PidController

/-- Claim C1: under anti-windup, `compute` freezes the integral exactly
when the clamped output is saturated at the max bound with a positive
error or at the min bound with a negative error; in every other case
(anti-windup disabled, not saturated, or saturated opposite to the
error's sign) the integral becomes `integral + error * dt`. -/
theorem anti_windup_freezes_integral (s : PidController) (e dt now : ℚ) :
    (s.compute e dt now).2.integral =
      if s.config.anti_windup = true ∧
          (((s.compute e dt now).1 ≥ s.config.max_output ∧ e > 0) ∨
           ((s.compute e dt now).1 ≤ s.config.min_output ∧ e < 0))
      then s.integral
      else s.integral + e * dt :=
  compute_integral_spec s e dt now

/-- Claim C2: for any raw output and bounds with `min ≤ max`, the
clamping step of `compute` lands in `[min, max]` and is the identity on
raw outputs already in range. -/
theorem clamp_in_range_and_idempotent (raw mn mx : ℚ) (h : mn ≤ mx) :
    mn ≤ clampOutput raw mn mx ∧ clampOutput raw mn mx ≤ mx ∧
      (mn ≤ raw → raw ≤ mx → clampOutput raw mn mx = raw) := by
  unfold clampOutput
  split_ifs with h1 h2 <;>
    exact ⟨by linarith, by linarith, fun ha hb => by linarith⟩

theorem clamp_in_range_and_idempotent_witness :
    (0 : ℚ) ≤ 10 ∧
      ((0 : ℚ) ≤ clampOutput 5 0 10 ∧ clampOutput 5 0 10 ≤ 10 ∧
        ((0 : ℚ) ≤ 5 → (5 : ℚ) ≤ 10 → clampOutput 5 0 10 = 5)) :=
  ⟨by norm_num, clamp_in_range_and_idempotent 5 0 10 (by norm_num)⟩

/-- Claim C3: the very first `compute` call on a freshly constructed
engine has a derivative term of exactly 0 for every error and every
`dt > 0` (because `prev_error` is seeded with the first observed
error), and consequently its output carries no derivative
contribution. -/
theorem first_compute_derivative_zero (cfg : ControllerConfig) (t0 e dt now : ℚ)
    (_hdt : 0 < dt) :
    (((new cfg t0).update_statistics e now).seedFirstRun e).dTerm e dt = 0 ∧
    ((new cfg t0).compute e dt now).1 =
      clampOutput (cfg.kp * e + cfg.ki * (0 + e * dt) + 0)
        cfg.min_output cfg.max_output := by
  constructor
  · simp [dTerm, seed_prev_error, us_first_run, new]
  · rw [compute_output_spec]
    simp [new]

theorem first_compute_derivative_zero_witness :
    (0 : ℚ) < 1 ∧
      ((((new sampleConfig 0).update_statistics 7 0).seedFirstRun 7).dTerm 7 1 = 0 ∧
        ((new sampleConfig 0).compute 7 1 0).1 =
          clampOutput (sampleConfig.kp * 7 + sampleConfig.ki * (0 + 7 * 1) + 0)
            sampleConfig.min_output sampleConfig.max_output) :=
  ⟨by norm_num, first_compute_derivative_zero sampleConfig 0 7 1 0 (by norm_num)⟩

/-- Claim C4: after 50 `compute` calls with constant `error = 10`,
`dt = 0.1` on the two `tests::test_anti_windup` configurations, the
anti-windup engine's integral has strictly smaller magnitude than the
non-anti-windup engine's. -/
theorem anti_windup_integral_smaller :
    |((new config_with_anti_windup 0).runConst 10 (1/10) 0 50).integral| <
      |((new config_with_windup 0).runConst 10 (1/10) 0 50).integral| := by
  rw [aw_run_integral_zero, runConst_integral_noAW _ _ _ _ rfl]
  norm_num [new]

/-- Claim C5: `reset` zeroes the dynamic state (`integral`,
`prev_error`), restores `first_run`, clears every statistics
accumulator, reseeds `start_time`, and leaves `config` untouched. -/
theorem reset_clears_dynamic_preserves_config (s : PidController) (now : ℚ) :
    (s.reset now).config = s.config ∧ (s.reset now).integral = 0 ∧
    (s.reset now).prev_error = 0 ∧ (s.reset now).first_run = true ∧
    (s.reset now).start_time = now ∧ (s.reset now).error_sum = 0 ∧
    (s.reset now).error_count = 0 ∧ (s.reset now).max_error = 0 ∧
    (s.reset now).reached_setpoint = false ∧ (s.reset now).rise_time = none ∧
    (s.reset now).settle_time = none := by
  repeat' apply And.intro
  all_goals rfl

end PidController
end Pidgeon

namespace Pidgeon
namespace PidController

/-- Claim C6: the thread-safe facade's `get_control_signal` returns 0
on an engine that has never computed, and after any `compute` call it
returns `kp * (last stored error) + ki * (stored integral)` with no
derivative contribution, clamped into the output limits; it reads the
engine state without modifying it. -/
theorem get_control_signal_spec :
    (∀ (cfg : ControllerConfig) (t0 : ℚ),
        ThreadSafePidController.get_control_signal (new cfg t0) = 0) ∧
    (∀ (s : PidController) (e dt now : ℚ),
        ThreadSafePidController.get_control_signal ((s.compute e dt now).2) =
          clampOutput (s.config.kp * e + s.config.ki * (s.compute e dt now).2.integral)
            s.config.min_output s.config.max_output) := by
  constructor
  · intro cfg t0
    simp [ThreadSafePidController.get_control_signal, new]
  · intro s e dt now
    simp [ThreadSafePidController.get_control_signal, compute_first_run,
      compute_prev_error, compute_config]

/-- Claim C7 counterexample: `settledAtTwo` settled at absolute time 2
(with `start_time = 0`); queried at time 5, `get_statistics` reports
`settling_time = 2` — the time from start to settling — and not the
elapsed time since settling, `5 - 2 = 3`. -/
theorem settling_time_counterexample :
    (settledAtTwo.get_statistics 5).settling_time = 2 ∧
      (settledAtTwo.get_statistics 5).settling_time ≠ 5 - 2 := by
  have hs : settledAtTwo.settle_time = some 2 := by
    show ((new _ 0).compute 0 (1/10) 2).2.settle_time = some 2
    rw [compute_settle_eq_us, us_settle_first_entry _ _ _ rfl (by norm_num [new]) rfl]
    norm_num [new]
  constructor
  · simp [get_statistics, hs]
  · simp [get_statistics, hs]
    norm_num

/-- Claim C7 (amended): when a settle time is recorded, `get_statistics`
reports `settling_time` as the duration from `start_time` to the moment
the controller (most recently) entered the settled band — not the
elapsed time since settling; when no settle time is recorded it reports
the elapsed time since start. -/
theorem settling_time_reports_start_to_settle (s : PidController)
    (e dt tset now : ℚ) (h1 : s.settle_time = none)
    (h2 : |e| ≤ s.settled_threshold) (h3 : s.reached_setpoint = true) :
    (((s.compute e dt tset).2).get_statistics now).settling_time = tset - s.start_time ∧
      (s.get_statistics now).settling_time = now - s.start_time := by
  constructor
  · have hset : (s.compute e dt tset).2.settle_time = some (tset - s.start_time) := by
      rw [compute_settle_eq_us, us_settle_of_band s e tset h1 h2 h3]
    simp [get_statistics, hset]
  · simp [get_statistics, h1]

theorem settling_time_reports_start_to_settle_witness :
    bandState.settle_time = none ∧ |(0 : ℚ)| ≤ bandState.settled_threshold ∧
      bandState.reached_setpoint = true ∧
      ((((bandState.compute 0 1 3).2).get_statistics 7).settling_time =
          3 - bandState.start_time ∧
        (bandState.get_statistics 7).settling_time = 7 - bandState.start_time) :=
  ⟨rfl, by norm_num [bandState], rfl,
    settling_time_reports_start_to_settle bandState 0 1 3 7 rfl
      (by norm_num [bandState]) rfl⟩

/-- Claim C8: once the controller has reached the setpoint,
`reached_setpoint` and `rise_time` survive any further sequence of
`compute` calls unchanged (rise time is sticky), while any single
`compute` call whose absolute error exceeds `settled_threshold`
clears `settle_time` back to unset. -/
theorem rise_sticky_settle_rearms (s : PidController) (L : List (ℚ × ℚ × ℚ))
    (e dt now : ℚ) (h : s.reached_setpoint = true)
    (hexc : |e| > s.settled_threshold) :
    (s.runList L).reached_setpoint = true ∧ (s.runList L).rise_time = s.rise_time ∧
      (s.compute e dt now).2.settle_time = none := by
  obtain ⟨a, b⟩ := runList_reached_rise L s h
  exact ⟨a, b, compute_settle_of_big s e dt now hexc⟩

theorem rise_sticky_settle_rearms_witness :
    bandState.reached_setpoint = true ∧ |(100 : ℚ)| > bandState.settled_threshold ∧
      ((bandState.runList [(3, 1, 2)]).reached_setpoint = true ∧
        (bandState.runList [(3, 1, 2)]).rise_time = bandState.rise_time ∧
        (bandState.compute 100 1 9).2.settle_time = none) :=
  ⟨rfl, by norm_num [bandState],
    rise_sticky_settle_rearms bandState [(3, 1, 2)] 100 1 9 rfl
      (by norm_num [bandState])⟩

/-- Claim C10: every runtime setter (`set_kp`, `set_ki`, `set_kd`,
`set_output_limits`, `set_anti_windup`, `set_setpoint`,
`set_settled_threshold`) modifies only the named configuration or
threshold field and leaves the whole dynamic and statistics state
(`integral`, `prev_error`, `first_run`, `start_time`, `error_sum`,
`error_count`, `max_error`, `reached_setpoint`, `rise_time`,
`settle_time`) untouched. -/
theorem setters_preserve_dynamic_state (s : PidController)
    (kp ki kd mn mx : ℚ) (aw : Bool) (sp th : ℚ) :
    (dynamicFrame (s.set_kp kp) s ∧
      (s.set_kp kp).settled_threshold = s.settled_threshold ∧
      (s.set_kp kp).config = { s.config with kp := kp }) ∧
    (dynamicFrame (s.set_ki ki) s ∧
      (s.set_ki ki).settled_threshold = s.settled_threshold ∧
      (s.set_ki ki).config = { s.config with ki := ki }) ∧
    (dynamicFrame (s.set_kd kd) s ∧
      (s.set_kd kd).settled_threshold = s.settled_threshold ∧
      (s.set_kd kd).config = { s.config with kd := kd }) ∧
    (dynamicFrame (s.set_output_limits mn mx) s ∧
      (s.set_output_limits mn mx).settled_threshold = s.settled_threshold ∧
      (s.set_output_limits mn mx).config =
        { s.config with min_output := mn, max_output := mx }) ∧
    (dynamicFrame (s.set_anti_windup aw) s ∧
      (s.set_anti_windup aw).settled_threshold = s.settled_threshold ∧
      (s.set_anti_windup aw).config = { s.config with anti_windup := aw }) ∧
    (dynamicFrame (s.set_setpoint sp) s ∧
      (s.set_setpoint sp).settled_threshold = s.settled_threshold ∧
      (s.set_setpoint sp).config = { s.config with setpoint := sp }) ∧
    (dynamicFrame (s.set_settled_threshold th) s ∧
      (s.set_settled_threshold th).settled_threshold = th ∧
      (s.set_settled_threshold th).config = s.config) := by
  simp only [dynamicFrame]
  repeat' apply And.intro
  all_goals rfl

end PidController
end Pidgeon
